import Mathlib

set_option maxRecDepth 20000
set_option maxHeartbeats 1000000

/-!
Shallow embedding of the query-safety validation and response-parsing core of
the `pcybox-sqlbuddy` repository:

* `src/sqlbuddy/utils/validators.py` (`QueryValidator.validate_query`,
  `QueryValidator.is_safe_query`), and
* `src/sqlbuddy/llm/query_generator.py` (`QueryGenerator._parse_response`).

Strings are modelled as `List Char` (via `String.data`).  The Python regular
expressions used by the source are fixed, concrete patterns; each one is
translated into an explicit, executable matcher over `List Char` with the
semantics of `re.search` / `re.findall` on that concrete pattern (leftmost
search; `\s` and `str.strip()` are the ASCII whitespace characters; `\w` is
`[A-Za-z0-9_]`; `$` matches at the end of the string or just before a final
newline; `.` matches anything except a newline unless `re.DOTALL` is given).
Greedy/lazy sub-matching is resolved per pattern: for every pattern below the
token following a greedy `\s+`/`\s*`/`\w+` starts with a character the greedy
class cannot consume, so maximal munch is the unique viable choice.
-/

/-- ASCII whitespace, the characters matched by Python `\s` and stripped by
`str.strip()` for ASCII input. -/
def pySpace (c : Char) : Bool :=
  c = ' ' || c = '\t' || c = '\n' || c = '\r' || c = '\x0B' || c = '\x0C'

/-- Character class of Python `\w` (ASCII). -/
def isWordC (c : Char) : Bool :=
  c.isAlpha || c.isDigit || c = '_'

/-- The apostrophe character (ASCII 39). -/
def quoteC : Char := Char.ofNat 39

/-- Python `str.strip()`: drop ASCII whitespace from both ends. -/
def pyStrip (l : List Char) : List Char :=
  ((l.dropWhile pySpace).reverse.dropWhile pySpace).reverse

/-- Python `str.strip(chars)`: drop any of the given characters from both ends. -/
def pyStripSet (cs : List Char) (l : List Char) : List Char :=
  ((l.dropWhile (fun c => cs.contains c)).reverse.dropWhile (fun c => cs.contains c)).reverse

/-- Case-insensitive literal match: consume `pat` at the head of `s`
(comparing via `Char.toLower`), returning the rest on success. -/
def litCI : List Char → List Char → Option (List Char)
  | [], s => some s
  | _ :: _, [] => none
  | p :: ps, c :: cs => if p.toLower = c.toLower then litCI ps cs else none

/-- Whether `pat` is a case-insensitive prefix of `s`. -/
def startsCI (pat s : List Char) : Bool := (litCI pat s).isSome

/-- Exact (case-sensitive) prefix test, used for Python's `in` on strings. -/
def startsEx : List Char → List Char → Bool
  | [], _ => true
  | _ :: _, [] => false
  | p :: ps, c :: cs => p = c && startsEx ps cs

/-- Python `pat in s`: exact substring containment. -/
def containsSub (pat : List Char) : List Char → Bool
  | [] => startsEx pat []
  | c :: t => startsEx pat (c :: t) || containsSub pat t

/-- Consume a maximal run of whitespace (`\s*`). -/
def skipWsAll (s : List Char) : List Char := s.dropWhile pySpace

/-- Consume `\s+`: at least one whitespace character, then a maximal run. -/
def skipWs1 : List Char → Option (List Char)
  | [] => none
  | c :: cs => if pySpace c then some (skipWsAll cs) else none

/-- Consume `\w+`: at least one word character, then a maximal run. -/
def skipWord1 : List Char → Option (List Char)
  | [] => none
  | c :: cs => if isWordC c then some (cs.dropWhile isWordC) else none

/-- Trailing `\b` after a word character: the next character, if any, is not a
word character. -/
def endOk : List Char → Bool
  | [] => true
  | c :: _ => !isWordC c

/-- Match a literal followed by a trailing word boundary (`LIT\b`). -/
def litWB (pat s : List Char) : Bool :=
  match litCI pat s with
  | some r => endOk r
  | none => false

/-- Tail of the regex `\s*(?:;|$)`: skip whitespace, then require a semicolon
or the end of the string (`$` also matches just before a final newline, which
is subsumed because the newline itself is whitespace). -/
def wsSemiEnd : List Char → Bool
  | [] => true
  | c :: t => if c = ';' then true else if pySpace c then wsSemiEnd t else false

/-- Tail of the regex `.*(?:;|$)` without `re.DOTALL`: some `;` occurs before
the end of the current line, or the current line is the last one (`$` matches
at the end of the string or just before a final newline). -/
def dotSemiEnd : List Char → Bool
  | [] => true
  | c :: t => if c = ';' then true else if c = '\n' then t.isEmpty else dotSemiEnd t

/-- Search for a match of `m` at any position preceded by a word boundary
(`\b` before a word character: the previous character, if any, is not a word
character).  `prev` is the character just before the current position. -/
def searchWB (m : List Char → Bool) : Option Char → List Char → Bool
  | _, [] => false
  | prev, c :: t =>
    ((match prev with
      | none => true
      | some p => !isWordC p) && m (c :: t)) || searchWB m (some c) t

/-- Search for a match of `m` at any position of `s` (plain `re.search`). -/
def searchPos (m : List Char → Bool) : List Char → Bool
  | [] => m []
  | c :: t => m (c :: t) || searchPos m t

/-! Matchers for the individual `DANGEROUS_PATTERNS` of
`QueryValidator` (validators.py lines 15-25), each applied at one position
(the leading `\b` is handled by `searchWB`). -/

/-- Matcher body of `\bDROP\s+(?:TABLE|DATABASE|SCHEMA)\b`. -/
def atDropTable (s : List Char) : Bool :=
  match litCI "DROP".data s with
  | some r =>
    match skipWs1 r with
    | some r2 => litWB "TABLE".data r2 || litWB "DATABASE".data r2 || litWB "SCHEMA".data r2
    | none => false
  | none => false

/-- Matcher body of `\bTRUNCATE\s+TABLE\b`. -/
def atTruncate (s : List Char) : Bool :=
  match litCI "TRUNCATE".data s with
  | some r =>
    match skipWs1 r with
    | some r2 => litWB "TABLE".data r2
    | none => false
  | none => false

/-- Matcher body of `\bDELETE\s+FROM\s+\w+\s*(?:;|$)`. -/
def atDeleteFrom (s : List Char) : Bool :=
  match litCI "DELETE".data s with
  | some r =>
    match skipWs1 r with
    | some r2 =>
      match litCI "FROM".data r2 with
      | some r3 =>
        match skipWs1 r3 with
        | some r4 =>
          match skipWord1 r4 with
          | some r5 => wsSemiEnd r5
          | none => false
        | none => false
      | none => false
    | none => false
  | none => false

/-- Matcher body of `\bUPDATE\s+\w+\s+SET\s+.*(?:;|$)`. -/
def atUpdateSet (s : List Char) : Bool :=
  match litCI "UPDATE".data s with
  | some r =>
    match skipWs1 r with
    | some r2 =>
      match skipWord1 r2 with
      | some r3 =>
        match skipWs1 r3 with
        | some r4 =>
          match litCI "SET".data r4 with
          | some r5 =>
            match skipWs1 r5 with
            | some r6 => dotSemiEnd r6
            | none => false
          | none => false
        | none => false
      | none => false
    | none => false
  | none => false

/-- Matcher body of `\bGRANT\b`. -/
def atGrant (s : List Char) : Bool := litWB "GRANT".data s

/-- Matcher body of `\bREVOKE\b`. -/
def atRevoke (s : List Char) : Bool := litWB "REVOKE".data s

/-- Matcher body of `\bALTER\s+TABLE\b`. -/
def atAlterTable (s : List Char) : Bool :=
  match litCI "ALTER".data s with
  | some r =>
    match skipWs1 r with
    | some r2 => litWB "TABLE".data r2
    | none => false
  | none => false

/-- Matcher body of `\bCREATE\s+(?:USER|ROLE)\b`. -/
def atCreateUserRole (s : List Char) : Bool :=
  match litCI "CREATE".data s with
  | some r =>
    match skipWs1 r with
    | some r2 => litWB "USER".data r2 || litWB "ROLE".data r2
    | none => false
  | none => false

/-- Matcher body of `\bDROP\s+(?:USER|ROLE)\b`. -/
def atDropUserRole (s : List Char) : Bool :=
  match litCI "DROP".data s with
  | some r =>
    match skipWs1 r with
    | some r2 => litWB "USER".data r2 || litWB "ROLE".data r2
    | none => false
  | none => false

/-! Matchers for the `INJECTION_PATTERNS` (validators.py lines 28-33). -/

/-- Matcher body of `(?:;|--|\#|\/\*|\*\/)`. -/
def atInjChars (s : List Char) : Bool :=
  startsCI ";".data s || startsCI "--".data s || startsCI "#".data s ||
    startsCI "/*".data s || startsCI "*/".data s

/-- Final `(?:'|\d)` of the quote-then-OR/AND injection pattern. -/
def tailQuoteOrDigit : List Char → Bool
  | [] => false
  | c :: _ => c = quoteC || c.isDigit

/-- Matcher body of the quote-then-OR/AND pattern
`(?:'|\")(?:\s*(?:OR|AND)\s*(?:'|\d))`. -/
def atInjBool (s : List Char) : Bool :=
  match s with
  | [] => false
  | c :: r =>
    (c = quoteC || c = '"') &&
      (let r2 := skipWsAll r
       (match litCI "OR".data r2 with
        | some r3 => tailQuoteOrDigit (skipWsAll r3)
        | none => false) ||
       (match litCI "AND".data r2 with
        | some r3 => tailQuoteOrDigit (skipWsAll r3)
        | none => false))

/-- Matcher body of `UNION\s+(?:ALL\s+)?SELECT`. -/
def atInjUnion (s : List Char) : Bool :=
  match litCI "UNION".data s with
  | some r =>
    match skipWs1 r with
    | some r2 =>
      (match litCI "ALL".data r2 with
       | some r3 =>
         match skipWs1 r3 with
         | some r4 => startsCI "SELECT".data r4
         | none => false
       | none => false) ||
      startsCI "SELECT".data r2
    | none => false
  | none => false

/-- Matcher body of `(?:EXEC|EXECUTE)\s*\(`. -/
def atInjExec (s : List Char) : Bool :=
  (match litCI "EXEC".data s with
   | some r =>
     match skipWsAll r with
     | '(' :: _ => true
     | _ => false
   | none => false) ||
  (match litCI "EXECUTE".data s with
   | some r =>
     match skipWsAll r with
     | '(' :: _ => true
     | _ => false
   | none => false)

/-- The `DANGEROUS_PATTERNS` table of `QueryValidator` (validators.py
lines 15-25): the Python pattern text (used verbatim in messages) paired with
its matcher. -/
def dangerousPatterns : List (String × (List Char → Bool)) :=
  [("\\bDROP\\s+(?:TABLE|DATABASE|SCHEMA)\\b", searchWB atDropTable none),
   ("\\bTRUNCATE\\s+TABLE\\b", searchWB atTruncate none),
   ("\\bDELETE\\s+FROM\\s+\\w+\\s*(?:;|$)", searchWB atDeleteFrom none),
   ("\\bUPDATE\\s+\\w+\\s+SET\\s+.*(?:;|$)", searchWB atUpdateSet none),
   ("\\bGRANT\\b", searchWB atGrant none),
   ("\\bREVOKE\\b", searchWB atRevoke none),
   ("\\bALTER\\s+TABLE\\b", searchWB atAlterTable none),
   ("\\bCREATE\\s+(?:USER|ROLE)\\b", searchWB atCreateUserRole none),
   ("\\bDROP\\s+(?:USER|ROLE)\\b", searchWB atDropUserRole none)]

/-- The `INJECTION_PATTERNS` table of `QueryValidator` (validators.py
lines 28-33). -/
def injectionPatterns : List (String × (List Char → Bool)) :=
  [("(?:;|--|\\#|\\/\\*|\\*\\/)", searchPos atInjChars),
   ("(?:\x27|\\\")(?:\\s*(?:OR|AND)\\s*(?:\x27|\\d))", searchPos atInjBool),
   ("UNION\\s+(?:ALL\\s+)?SELECT", searchPos atInjUnion),
   ("(?:EXEC|EXECUTE)\\s*\\(", searchPos atInjExec)]

/-- The statement keywords of the command-presence check
(validators.py line 86). -/
def sqlCommandKeywords : List String :=
  ["SELECT", "INSERT", "UPDATE", "DELETE", "CREATE", "ALTER", "DROP"]

/-- Result dictionary of `QueryValidator.validate_query`
(validators.py lines 47-53). -/
structure ValidationReport where
  is_valid : Bool
  errors : List String
  warnings : List String
  is_destructive : Bool
  is_suspicious : Bool
deriving DecidableEq, Repr

/-- Initial report (validators.py lines 47-53). -/
def initReport : ValidationReport :=
  { is_valid := true, errors := [], warnings := [], is_destructive := false,
    is_suspicious := false }

/-- Emptiness test of validators.py line 55:
`not query or not query.strip()`. -/
def emptyC (q : String) : Bool :=
  q.data.isEmpty || (pyStrip q.data).isEmpty

/-- One iteration of the dangerous-pattern loop (validators.py lines 63-75). -/
def destructiveStep (allow : Bool) (qU : List Char) (r : ValidationReport)
    (p : String × (List Char → Bool)) : ValidationReport :=
  if p.2 qU then
    if allow then
      { r with is_destructive := true,
               warnings := r.warnings ++ ["Destructive operation detected: " ++ p.1] }
    else
      { r with is_destructive := true, is_valid := false,
               errors := r.errors ++
                 ["Destructive operation detected: " ++ p.1 ++
                  ". Set allow_destructive=True to bypass this check."] }
  else r

/-- One iteration of the injection-pattern loop (validators.py lines 78-83). -/
def injectionStep (q : List Char) (r : ValidationReport)
    (p : String × (List Char → Bool)) : ValidationReport :=
  if p.2 q then
    { r with is_suspicious := true,
             warnings := r.warnings ++
               ["Potentially suspicious pattern detected: " ++ p.1] }
  else r

/-- Command-presence check (validators.py lines 86-88). -/
def cmdStep (found : Bool) (r : ValidationReport) : ValidationReport :=
  if found then r
  else { r with is_valid := false, errors := r.errors ++ ["No valid SQL command found"] }

/-- Append a warning when `c` holds (validators.py lines 91-96). -/
def warnIf (c : Bool) (msg : String) (r : ValidationReport) : ValidationReport :=
  if c then { r with warnings := r.warnings ++ [msg] } else r

/-- Whether the command-presence check succeeds on `q`
(validators.py line 86: plain substring containment on the uppercased query). -/
def cmdFound (q : String) : Bool :=
  sqlCommandKeywords.any (fun k => containsSub k.data (q.data.map Char.toUpper))

/-- Unbalanced-parentheses condition (validators.py line 91). -/
def parenUnbal (q : String) : Bool :=
  q.data.count '(' != q.data.count ')'

/-- Unbalanced-quotes condition (validators.py line 95). -/
def quoteUnbal (q : String) : Bool :=
  (q.data.count quoteC % 2 != 0) || (q.data.count '"' % 2 != 0)

/-- `QueryValidator.validate_query` (validators.py lines 36-98).  The steps
run in source order, each transforming the accumulated report: empty check,
dangerous-pattern scan on the uppercased query, injection-pattern scan on the
original query, command-presence check, parenthesis balance, quote balance. -/
def validate_query (query : String) (allow_destructive : Bool) : ValidationReport :=
  if emptyC query then
    { is_valid := false, errors := ["Query is empty"], warnings := [],
      is_destructive := false, is_suspicious := false }
  else
    warnIf (quoteUnbal query) "Unbalanced quotes detected"
      (warnIf (parenUnbal query) "Unbalanced parentheses detected"
        (cmdStep (cmdFound query)
          (injectionPatterns.foldl (injectionStep query.data)
            (dangerousPatterns.foldl
              (destructiveStep allow_destructive (query.data.map Char.toUpper))
              initReport))))

/-- `QueryValidator.is_safe_query` (validators.py lines 100-112). -/
def is_safe_query (query : String) : Bool :=
  (validate_query query false).is_valid && !(validate_query query false).is_suspicious

/-! Embedding of `QueryGenerator._parse_response`
(query_generator.py lines 242-317). -/

/-- Parsed result dictionary of `_parse_response`
(query_generator.py lines 253-259). -/
structure ParsedGeneration where
  query : String
  explanation : String
  tables_used : List String
  optimizations : String
  raw_response : String
deriving DecidableEq, Repr

/-- Suffix of `s` after the first case-insensitive occurrence of `pat`
(`none` when `pat` does not occur). -/
def afterFirstCI (pat : List Char) : List Char → Option (List Char)
  | [] => litCI pat []
  | c :: t =>
    match litCI pat (c :: t) with
    | some r => some r
    | none => afterFirstCI pat t

/-- Split `s` at the first case-insensitive occurrence of `pat`: the part
before the occurrence and the part after it. -/
def splitAtFirstCI (pat : List Char) : List Char → Option (List Char × List Char)
  | [] =>
    match litCI pat [] with
    | some r => some ([], r)
    | none => none
  | c :: t =>
    match litCI pat (c :: t) with
    | some r => some ([], r)
    | none =>
      match splitAtFirstCI pat t with
      | some (pre, r) => some (c :: pre, r)
      | none => none

/-- The opening tag of a fenced SQL block. -/
def sqlTag : List Char := "```sql".data

/-- The fence delimiter. -/
def fenceTag : List Char := "```".data

/-- First match of the regex `r"```sql\s*(.*?)\s*```"` with
`re.DOTALL | re.IGNORECASE` (query_generator.py lines 262-266), already
stripped as by `sql_matches[0].strip()`: the leftmost match starts at the
first case-insensitive occurrence of `"```sql"`, its lazy group ends at the
first subsequent `"```"`, and the boundary `\s*`s combined with the final
`.strip()` amount to stripping the interior. -/
def extractSqlBlock (s : List Char) : Option (List Char) :=
  match afterFirstCI sqlTag s with
  | none => none
  | some rest =>
    match splitAtFirstCI fenceTag rest with
    | some (interior, _) => some (pyStrip interior)
    | none => none

/-- Python `response.split('\n')` (query_generator.py line 269). -/
def splitOnNl : List Char → List (List Char)
  | [] => [[]]
  | c :: t =>
    if c = '\n' then [] :: splitOnNl t
    else
      match splitOnNl t with
      | h :: r => (c :: h) :: r
      | [] => [[c]]

/-- Python `'\n'.join(lines)` (query_generator.py line 282). -/
def joinNl : List (List Char) → List Char
  | [] => []
  | [l] => l
  | l :: rest => l ++ '\n' :: joinNl rest

/-- SQL statement keywords of the fallback scan (query_generator.py line 275). -/
def sqlKeywords : List String :=
  ["select", "insert", "update", "delete", "create"]

/-- Trigger condition of the fallback scan (query_generator.py lines 274-276):
the lowercased, stripped line contains one of the statement keywords. -/
def trigger (l : List Char) : Bool :=
  sqlKeywords.any (fun k => containsSub k.data (pyStrip (l.map Char.toLower)))

/-- Terminator condition `line.strip().endswith(';')`
(query_generator.py line 280). -/
def endsSemi (l : List Char) : Bool :=
  match (pyStrip l).reverse with
  | c :: _ => c = ';'
  | [] => false

/-- The fallback line scan of `_parse_response`
(query_generator.py lines 269-281): accumulate lines from the first trigger
line onward and stop after the first line whose stripped content ends in a
semicolon. -/
def fallbackLoop : List (List Char) → Bool → List (List Char)
  | [], _ => []
  | l :: rest, inSql =>
    if inSql || trigger l then
      if endsSemi l then [l] else l :: fallbackLoop rest true
    else fallbackLoop rest false

/-- Spec-side description of the fallback span: the lines through the first
line (inclusive) whose stripped content ends in `;`, or all lines when none
does. -/
def takeThroughSemi : List (List Char) → List (List Char)
  | [] => []
  | l :: rest => if endsSemi l then [l] else l :: takeThroughSemi rest

/-- The extracted query of `_parse_response` (query_generator.py
lines 261-284): the first fenced SQL block when one matches, otherwise the
stripped newline-join of the fallback lines (empty when neither strategy
yields anything). -/
def extractedQuery (s : List Char) : List Char :=
  match extractSqlBlock s with
  | some q => q
  | none =>
    let sqlLines := fallbackLoop (splitOnNl s) false
    if sqlLines.isEmpty then [] else pyStrip (joinNl sqlLines)

/-- Lazy group end of the section regexes: take characters until a position
where one of the stop headers matches case-insensitively or the `$` of the
lookahead matches (end of string, or just before a final newline). -/
def takeUntilStop (stops : List (List Char)) : List Char → List Char
  | [] => []
  | c :: t =>
    if stops.any (fun p => startsCI p (c :: t)) then []
    else if c = '\n' && t.isEmpty then []
    else c :: takeUntilStop stops t

/-- Group of a section regex `HDR:\s*(.*?)(?=STOP1|STOP2|$)` with
`re.DOTALL | re.IGNORECASE`: locate the first occurrence of the header, skip
the greedy `\s*`, then take the lazy group up to the first stop position.
Returns `[]` when the header is absent (the result field stays empty). -/
def sectionAfter (hdr : List Char) (stops : List (List Char)) (s : List Char) : List Char :=
  match afterFirstCI hdr s with
  | none => []
  | some rest => takeUntilStop stops (skipWsAll rest)

/-- Header literals of the section regexes (query_generator.py
lines 287, 293, 305). -/
def explHdr : List Char := "EXPLANATION:".data

/-- Header of the tables section. -/
def tablesHdr : List Char := "TABLES USED:".data

/-- Header of the optimizations section. -/
def optHdr : List Char := "POTENTIAL OPTIMIZATIONS:".data

/-- Explanation extraction (query_generator.py lines 286-290). -/
def explanationOf (s : List Char) : List Char :=
  pyStrip (sectionAfter explHdr [tablesHdr, optHdr] s)

/-- Tables-used extraction (query_generator.py lines 292-302): strip the
captured section, split it on newlines, keep the lines that are non-blank and
not a lone dash, and strip each of `'- \n'`. -/
def tablesOf (s : List Char) : List String :=
  (splitOnNl (pyStrip (sectionAfter tablesHdr [optHdr] s))).filterMap
    (fun l =>
      if pyStrip l = [] ∨ pyStrip l = ['-'] then none
      else some (String.mk (pyStripSet ['-', ' ', '\n'] l)))

/-- Optimization-notes extraction (query_generator.py lines 304-308). -/
def optimizationsOf (s : List Char) : List Char :=
  pyStrip (sectionAfter optHdr [] s)

/-- Message of the `QueryGeneratorError` raised when no query was extracted
(query_generator.py lines 311-315). -/
def parseErrMsg : String :=
  "Failed to extract SQL query from LLM response. The response may be in an unexpected format."

/-- `QueryGenerator._parse_response` (query_generator.py lines 242-317):
build every field, then fail when the extracted query is empty. -/
def parse_response (response : String) : Except String ParsedGeneration :=
  if extractedQuery response.data = [] then Except.error parseErrMsg
  else
    Except.ok
      { query := String.mk (extractedQuery response.data),
        explanation := String.mk (explanationOf response.data),
        tables_used := tablesOf response.data,
        optimizations := String.mk (optimizationsOf response.data),
        raw_response := response }

/-- The query field of a successful parse, `none` on failure. -/
def parsedQueryOf (response : String) : Option String :=
  match parse_response response with
  | Except.ok pg => some pg.query
  | Except.error _ => none


/-! Claim theorems. -/

/-- Query of the C1 counterexample:
`SELECT * FROM users WHERE id=1 OR '1'='1'`. -/
def c1Query : String := "SELECT * FROM users WHERE id=1 OR \x271\x27=\x271\x27"

/-- Variant with a quote immediately before the `OR`:
`SELECT * FROM users WHERE id='1' OR '1'='1'`. -/
def c1Amended : String := "SELECT * FROM users WHERE id=\x271\x27 OR \x271\x27=\x271\x27"

/-- Claim C1, counterexample: on `SELECT * FROM users WHERE id=1 OR '1'='1'`
the report has `is_suspicious = false` for both values of `allow_destructive`,
contrary to the claim: the boolean-injection pattern requires a quote (up to
whitespace) immediately before the `OR`/`AND`, and here the `OR` is preceded
by a digit. -/
theorem claim_C1_counterexample :
    (validate_query c1Query false).is_suspicious = false ∧
    (validate_query c1Query true).is_suspicious = false := by
  constructor
  · decide
  · decide

/-- Claim C1, amended: the query of the claim yields `is_suspicious = false`
for both values of `allow_destructive`; a query in which a quote precedes the
`OR`, such as `SELECT * FROM users WHERE id='1' OR '1'='1'`, yields
`is_suspicious = true` for both values. -/
theorem claim_C1 :
    (validate_query c1Query false).is_suspicious = false ∧
    (validate_query c1Query true).is_suspicious = false ∧
    (validate_query c1Amended false).is_suspicious = true ∧
    (validate_query c1Amended true).is_suspicious = true := by
  refine ⟨by decide, by decide, by decide, by decide⟩

/-- Failing input of claim C2: a single-line UPDATE with a WHERE clause. -/
def c2Input : String := "UPDATE users SET id = 2 WHERE id = 1"

/-- Claim C2 (code bug): the regex `\bUPDATE\s+\w+\s+SET\s+.*(?:;|$)` matches
every single-line UPDATE because `.*` reaches the end of the line even across
a `WHERE` clause, so `UPDATE users SET id = 2 WHERE id = 1` is flagged as
destructive and invalid, although the source comment documents the pattern as
"UPDATE without WHERE". -/
theorem claim_C2 :
    (validate_query c2Input false).is_destructive = true ∧
    (validate_query c2Input false).is_valid = false := by
  constructor
  · decide
  · decide

/-- Claim C3: `DROP TABLE users;` is invalid and destructive with
`allow_destructive = false`; with `allow_destructive = true` it is valid,
still destructive, and carries at least one warning. -/
theorem claim_C3 :
    (validate_query "DROP TABLE users;" false).is_valid = false ∧
    (validate_query "DROP TABLE users;" false).is_destructive = true ∧
    (validate_query "DROP TABLE users;" true).is_valid = true ∧
    (validate_query "DROP TABLE users;" true).is_destructive = true ∧
    (validate_query "DROP TABLE users;" true).warnings ≠ [] := by
  refine ⟨by decide, by decide, by decide, by decide, by decide⟩

/-- Strip of a list whose characters are all whitespace is empty. -/
theorem pyStrip_eq_nil_of_all (l : List Char) (h : l.all pySpace = true) :
    pyStrip l = [] := by
  have hd : l.dropWhile pySpace = [] :=
    List.dropWhile_eq_nil_iff.mpr (fun x hx => List.all_eq_true.mp h x hx)
  simp [pyStrip, hd]

/-- Claim C5: on an empty or all-whitespace query the validator returns
immediately with `is_valid = false` and exactly the error `"Query is empty"`,
leaving every other field at its initial value. -/
theorem claim_C5 (q : String) (a : Bool) (h : q.data.all pySpace = true) :
    validate_query q a =
      { is_valid := false, errors := ["Query is empty"], warnings := [],
        is_destructive := false, is_suspicious := false } := by
  have he : emptyC q = true := by
    simp [emptyC, pyStrip_eq_nil_of_all _ h]
  simp [validate_query, he]

/-- Witness for claim C5 at the whitespace query `"  \n "`. -/
theorem claim_C5_witness :
    ("  \n ".data.all pySpace = true) ∧
      validate_query "  \n " false =
        { is_valid := false, errors := ["Query is empty"], warnings := [],
          is_destructive := false, is_suspicious := false } :=
  ⟨by decide, claim_C5 "  \n " false (by decide)⟩

/-- Input of the C9 scenario. -/
def c9Input : String :=
  "SQL QUERY:\n```sql\nSELECT * FROM users WHERE id = 1;\n```\n\nEXPLANATION:\nFetches one user.\n\nTABLES USED:\n- users\n"

/-- Claim C9: the scenario input parses to exactly the expected record, and
the raw response field always equals the untouched input. -/
theorem claim_C9 :
    parse_response c9Input =
      Except.ok
        { query := "SELECT * FROM users WHERE id = 1;",
          explanation := "Fetches one user.",
          tables_used := ["users"],
          optimizations := "",
          raw_response := c9Input } ∧
    ∀ (t : String) (pg : ParsedGeneration),
      parse_response t = Except.ok pg → pg.raw_response = t := by
  constructor
  · rfl
  · intro t pg h
    unfold parse_response at h
    split at h
    · exact Except.noConfusion h
    · cases h
      rfl

/-- Witness for claim C9: its universally quantified part applied at the
scenario input, with the hypothesis discharged by the concrete part. -/
theorem claim_C9_witness :
    ({ query := "SELECT * FROM users WHERE id = 1;",
       explanation := "Fetches one user.",
       tables_used := ["users"],
       optimizations := "",
       raw_response := c9Input } : ParsedGeneration).raw_response = c9Input :=
  claim_C9.2 c9Input _ claim_C9.1

/-! Characterization of the validator fields, used for the invariant claims. -/

/-- Whether some dangerous pattern matches the uppercased query. -/
def dangAny (q : String) : Bool :=
  dangerousPatterns.any (fun p => p.2 (q.data.map Char.toUpper))

/-- Whether some injection pattern matches the query. -/
def injAny (q : String) : Bool :=
  injectionPatterns.any (fun p => p.2 q.data)

/-- Validity after the dangerous-pattern fold. -/
theorem foldD_is_valid (a : Bool) (qU : List Char)
    (ps : List (String × (List Char → Bool))) (r : ValidationReport) :
    (ps.foldl (destructiveStep a qU) r).is_valid =
      (r.is_valid && (a || !(ps.any (fun p => p.2 qU)))) := by
  induction ps generalizing r with
  | nil => simp
  | cons p ps ih =>
    simp only [List.foldl_cons, List.any_cons, ih]
    by_cases h : p.2 qU = true <;> cases a <;>
      simp [destructiveStep, h, Bool.and_assoc]

/-- Suspicion flag is untouched by the dangerous-pattern fold. -/
theorem foldD_is_suspicious (a : Bool) (qU : List Char)
    (ps : List (String × (List Char → Bool))) (r : ValidationReport) :
    (ps.foldl (destructiveStep a qU) r).is_suspicious = r.is_suspicious := by
  induction ps generalizing r with
  | nil => simp
  | cons p ps ih =>
    simp only [List.foldl_cons, ih]
    by_cases h : p.2 qU = true <;> cases a <;> simp [destructiveStep, h]

/-- Emptiness of the error list after the dangerous-pattern fold. -/
theorem foldD_errors_nil (a : Bool) (qU : List Char)
    (ps : List (String × (List Char → Bool))) (r : ValidationReport) :
    ((ps.foldl (destructiveStep a qU) r).errors = []) ↔
      (r.errors = [] ∧ (a || !(ps.any (fun p => p.2 qU))) = true) := by
  induction ps generalizing r with
  | nil => simp
  | cons p ps ih =>
    simp only [List.foldl_cons, List.any_cons, ih]
    by_cases h : p.2 qU = true <;> cases a <;>
      simp [destructiveStep, h]

/-- Validity is untouched by the injection-pattern fold. -/
theorem foldI_is_valid (q : List Char)
    (ps : List (String × (List Char → Bool))) (r : ValidationReport) :
    (ps.foldl (injectionStep q) r).is_valid = r.is_valid := by
  induction ps generalizing r with
  | nil => simp
  | cons p ps ih =>
    simp only [List.foldl_cons, ih]
    by_cases h : p.2 q = true <;> simp [injectionStep, h]

/-- Errors are untouched by the injection-pattern fold. -/
theorem foldI_errors (q : List Char)
    (ps : List (String × (List Char → Bool))) (r : ValidationReport) :
    (ps.foldl (injectionStep q) r).errors = r.errors := by
  induction ps generalizing r with
  | nil => simp
  | cons p ps ih =>
    simp only [List.foldl_cons, ih]
    by_cases h : p.2 q = true <;> simp [injectionStep, h]

/-- Suspicion after the injection-pattern fold. -/
theorem foldI_is_suspicious (q : List Char)
    (ps : List (String × (List Char → Bool))) (r : ValidationReport) :
    (ps.foldl (injectionStep q) r).is_suspicious =
      (r.is_suspicious || ps.any (fun p => p.2 q)) := by
  induction ps generalizing r with
  | nil => simp
  | cons p ps ih =>
    simp only [List.foldl_cons, List.any_cons, ih]
    by_cases h : p.2 q = true <;> simp [injectionStep, h, Bool.or_assoc]

/-- Field equations for the command-presence step. -/
theorem cmdStep_is_valid (f : Bool) (r : ValidationReport) :
    (cmdStep f r).is_valid = (r.is_valid && f) := by
  cases f <;> simp [cmdStep]

/-- Errors after the command-presence step. -/
theorem cmdStep_errors_nil (f : Bool) (r : ValidationReport) :
    ((cmdStep f r).errors = []) ↔ (r.errors = [] ∧ f = true) := by
  cases f <;> simp [cmdStep]

/-- Suspicion is untouched by the command-presence step. -/
theorem cmdStep_is_suspicious (f : Bool) (r : ValidationReport) :
    (cmdStep f r).is_suspicious = r.is_suspicious := by
  cases f <;> simp [cmdStep]

/-- Validity is untouched by the balance warnings. -/
theorem warnIf_is_valid (c : Bool) (m : String) (r : ValidationReport) :
    (warnIf c m r).is_valid = r.is_valid := by
  cases c <;> simp [warnIf]

/-- Errors are untouched by the balance warnings. -/
theorem warnIf_errors (c : Bool) (m : String) (r : ValidationReport) :
    (warnIf c m r).errors = r.errors := by
  cases c <;> simp [warnIf]

/-- Suspicion is untouched by the balance warnings. -/
theorem warnIf_is_suspicious (c : Bool) (m : String) (r : ValidationReport) :
    (warnIf c m r).is_suspicious = r.is_suspicious := by
  cases c <;> simp [warnIf]

/-- Validity of a report: non-empty query, no disallowed dangerous match, and
a recognized SQL command present. -/
theorem validate_is_valid (q : String) (a : Bool) :
    (validate_query q a).is_valid =
      (!emptyC q && ((a || !dangAny q) && cmdFound q)) := by
  cases he : emptyC q
  · simp only [validate_query, he, Bool.false_eq_true, if_false]
    rw [warnIf_is_valid, warnIf_is_valid, cmdStep_is_valid, foldI_is_valid,
      foldD_is_valid]
    simp [initReport, dangAny, Bool.and_assoc]
  · simp [validate_query, he]

/-- Suspicion of a report: non-empty query and some injection match. -/
theorem validate_is_suspicious (q : String) (a : Bool) :
    (validate_query q a).is_suspicious = (!emptyC q && injAny q) := by
  cases he : emptyC q
  · simp only [validate_query, he, Bool.false_eq_true, if_false]
    rw [warnIf_is_suspicious, warnIf_is_suspicious, cmdStep_is_suspicious,
      foldI_is_suspicious, foldD_is_suspicious]
    simp [initReport, injAny]
  · simp [validate_query, he]

/-- The error list is empty exactly when the report is valid. -/
theorem validate_errors_nil (q : String) (a : Bool) :
    ((validate_query q a).errors = []) ↔ ((validate_query q a).is_valid = true) := by
  rw [validate_is_valid]
  cases he : emptyC q
  · simp only [validate_query, he, Bool.false_eq_true, if_false]
    rw [warnIf_errors, warnIf_errors, cmdStep_errors_nil, foldI_errors,
      foldD_errors_nil]
    simp [initReport, dangAny, Bool.and_assoc]
  · simp [validate_query, he]

/-- Claim C4: whenever the error list is non-empty the report is invalid, and
invalidity arises only from the empty-query check, a dangerous match with
`allow_destructive = false`, or the missing-command check. -/
theorem claim_C4 (q : String) (a : Bool) :
    ((validate_query q a).errors ≠ [] → (validate_query q a).is_valid = false) ∧
    ((validate_query q a).is_valid = false →
      emptyC q = true ∨ (dangAny q = true ∧ a = false) ∨ cmdFound q = false) := by
  constructor
  · intro h
    cases hv : (validate_query q a).is_valid
    · rfl
    · exact absurd ((validate_errors_nil q a).mpr hv) h
  · intro h
    rw [validate_is_valid] at h
    cases he : emptyC q <;> cases hd : dangAny q <;> cases hc : cmdFound q <;>
      cases a <;> simp_all

/-- Witness for claim C4 at the query `"hello"`, whose report carries the
missing-command error. -/
theorem claim_C4_witness :
    (validate_query "hello" false).errors ≠ [] ∧
      (validate_query "hello" false).is_valid = false :=
  ⟨by decide, (claim_C4 "hello" false).1 (by decide)⟩

/-- A list with an empty strip consists of whitespace only. -/
theorem all_of_pyStrip_eq_nil (l : List Char) (h : pyStrip l = []) :
    ∀ x ∈ l, pySpace x = true := by
  unfold pyStrip at h
  rw [List.reverse_eq_nil_iff] at h
  have h2 := List.dropWhile_eq_nil_iff.mp h
  intro x hx
  rw [← List.takeWhile_append_dropWhile (p := pySpace) (l := l)] at hx
  rcases List.mem_append.mp hx with h3 | h3
  · exact List.mem_takeWhile_imp h3
  · exact h2 x (List.mem_reverse.mpr h3)

/-- A list containing a non-whitespace character has a non-empty strip. -/
theorem pyStrip_ne_nil_of_mem (l : List Char) (c : Char) (hm : c ∈ l)
    (hc : pySpace c = false) : pyStrip l ≠ [] := by
  intro h
  rw [all_of_pyStrip_eq_nil l h c hm] at hc
  exact Bool.noConfusion hc

/-- A query containing a semicolon matches the first injection pattern. -/
theorem searchPos_semi (s : List Char) (h : ';' ∈ s) :
    searchPos atInjChars s = true := by
  induction s with
  | nil => cases h
  | cons c t ih =>
    rcases List.mem_cons.mp h with hc | hm
    · have hat : atInjChars (';' :: t) = true := by
        have : startsCI ";".data (';' :: t) = true := rfl
        simp [atInjChars, this]
      rw [← hc] at *
      simp [searchPos, hat]
    · simp [searchPos, ih hm]

/-- Claim C10: `is_safe_query` is exactly valid-and-not-suspicious for the
report of `validate_query` with `allow_destructive = false`, and any query
containing a semicolon is unsafe. -/
theorem claim_C10 (q : String) :
    is_safe_query q =
      ((validate_query q false).is_valid && !(validate_query q false).is_suspicious) ∧
    (';' ∈ q.data → is_safe_query q = false) := by
  constructor
  · rfl
  · intro h
    have hin : injAny q = true := by
      have hp : searchPos atInjChars q.data = true := searchPos_semi q.data h
      simp [injAny, injectionPatterns, hp]
    have hne : emptyC q = false := by
      have h1 : q.data.isEmpty = false := by
        cases hq : q.data
        · rw [hq] at h; cases h
        · rfl
      have h2 : (pyStrip q.data).isEmpty = false := by
        have := pyStrip_ne_nil_of_mem q.data ';' h (by decide)
        cases hq : pyStrip q.data
        · exact absurd hq this
        · rfl
      simp [emptyC, h1, h2]
    have hs : (validate_query q false).is_suspicious = true := by
      rw [validate_is_suspicious, hne, hin]
      rfl
    simp [is_safe_query, hs]

/-- Witness for claim C10 at `SELECT * FROM users;`: valid, yet unsafe
because of the semicolon. -/
theorem claim_C10_witness :
    (';' ∈ "SELECT * FROM users;".data) ∧
      is_safe_query "SELECT * FROM users;" = false :=
  ⟨by decide, (claim_C10 "SELECT * FROM users;").2 (by decide)⟩

/-! Lemmas about the fallback line scan, used for the parse claims. -/

/-- Once accumulating, the fallback scan takes lines through the first
semicolon-terminated one. -/
theorem fallbackLoop_true_eq (ls : List (List Char)) :
    fallbackLoop ls true = takeThroughSemi ls := by
  induction ls with
  | nil => rfl
  | cons l t ih => simp [fallbackLoop, takeThroughSemi, ih]

/-- The fallback scan drops lines up to the first trigger line and then takes
lines through the first semicolon-terminated one. -/
theorem fallbackLoop_false_eq (ls : List (List Char)) :
    fallbackLoop ls false = takeThroughSemi (ls.dropWhile (fun l => !trigger l)) := by
  induction ls with
  | nil => rfl
  | cons l t ih =>
    cases ht : trigger l
    · simpa [fallbackLoop, ht, List.dropWhile_cons] using ih
    · simp [fallbackLoop, ht, List.dropWhile_cons, takeThroughSemi,
        fallbackLoop_true_eq]

/-- The first line returned by the fallback scan is a trigger line. -/
theorem fallbackLoop_head_trigger (ls : List (List Char)) (l : List Char)
    (rest : List (List Char)) (h : fallbackLoop ls false = l :: rest) :
    trigger l = true := by
  induction ls with
  | nil => simp [fallbackLoop] at h
  | cons a t ih =>
    cases ht : trigger a
    · simp only [fallbackLoop, ht, Bool.or_false] at h
      exact ih h
    · simp only [fallbackLoop, ht, Bool.or_true] at h
      cases hs : endsSemi a <;> simp [hs] at h <;> rw [← h.1] <;> exact ht

/-- A non-empty pattern can only be contained in a non-empty string. -/
theorem containsSub_ne_nil (p s : List Char) (hp : p ≠ [])
    (h : containsSub p s = true) : s ≠ [] := by
  intro hs
  subst hs
  cases p with
  | nil => exact hp rfl
  | cons a b => simp [containsSub, startsEx] at h

/-- Lowercasing preserves whitespace. -/
theorem pySpace_toLower (c : Char) (h : pySpace c = true) :
    pySpace c.toLower = true := by
  have h2 : c = ' ' ∨ c = '\t' ∨ c = '\n' ∨ c = '\r' ∨ c = '\x0B' ∨ c = '\x0C' := by
    simpa [pySpace, or_assoc] using h
  rcases h2 with h | h | h | h | h | h <;> subst h <;> decide

/-- A trigger line contains a non-whitespace character. -/
theorem trigger_has_nonspace (l : List Char) (h : trigger l = true) :
    ∃ c ∈ l, pySpace c = false := by
  unfold trigger at h
  rw [List.any_eq_true] at h
  obtain ⟨k, hk, hc⟩ := h
  have hkne : k.data ≠ [] := by
    simp only [sqlKeywords, List.mem_cons, List.not_mem_nil, or_false] at hk
    rcases hk with rfl | rfl | rfl | rfl | rfl <;> decide
  have hstrip : pyStrip (l.map Char.toLower) ≠ [] := containsSub_ne_nil _ _ hkne hc
  by_contra hno
  push_neg at hno
  apply hstrip
  apply pyStrip_eq_nil_of_all
  rw [List.all_eq_true]
  intro x hx
  rw [List.mem_map] at hx
  obtain ⟨c0, hc0, rfl⟩ := hx
  have h0 : pySpace c0 = true := by
    have := hno c0 hc0
    simpa using this
  exact pySpace_toLower c0 h0

/-- Characters of the first line are characters of the newline join. -/
theorem mem_joinNl_head (l : List Char) (rest : List (List Char)) (c : Char)
    (h : c ∈ l) : c ∈ joinNl (l :: rest) := by
  cases rest with
  | nil => simpa [joinNl]
  | cons r t =>
    simp only [joinNl]
    exact List.mem_append.mpr (Or.inl h)

/-- A non-empty fallback result strips to a non-empty query. -/
theorem fallback_strip_ne (ls : List (List Char))
    (h : fallbackLoop ls false ≠ []) :
    pyStrip (joinNl (fallbackLoop ls false)) ≠ [] := by
  obtain ⟨l, rest, heq⟩ : ∃ l rest, fallbackLoop ls false = l :: rest := by
    cases hf : fallbackLoop ls false
    · exact absurd hf h
    · exact ⟨_, _, rfl⟩
  have htr := fallbackLoop_head_trigger ls _ _ heq
  obtain ⟨c, hcl, hcs⟩ := trigger_has_nonspace l htr
  rw [heq]
  exact pyStrip_ne_nil_of_mem _ c (mem_joinNl_head l rest c hcl) hcs

/-- Claim C6, counterexample: the input "```sql\n```" contains a fenced SQL
block (the extraction succeeds, with empty trimmed interior), yet `parse`
fails, contradicting the claim that it raises only when neither strategy
finds a block or fallback lines. -/
theorem claim_C6_counterexample :
    parse_response "```sql\n```" = Except.error parseErrMsg ∧
      (extractSqlBlock "```sql\n```".data).isSome = true := by
  exact ⟨rfl, by decide⟩

/-- Claim C6, amended: `parse` fails exactly when the extracted query is
empty, which happens exactly when either no fenced SQL block matches and the
fallback scan accumulates no lines, or the first fenced SQL block's interior
trims to the empty string; every successful parse carries a non-empty
query. -/
theorem claim_C6 (r : String) :
    (parse_response r = Except.error parseErrMsg ↔ extractedQuery r.data = []) ∧
    (extractedQuery r.data = [] ↔
      ((extractSqlBlock r.data = none ∧ fallbackLoop (splitOnNl r.data) false = []) ∨
        extractSqlBlock r.data = some [])) ∧
    (∀ pg : ParsedGeneration, parse_response r = Except.ok pg → pg.query ≠ "") := by
  refine ⟨?_, ?_, ?_⟩
  · unfold parse_response
    by_cases hq : extractedQuery r.data = []
    · simp [hq]
    · simp [hq]
  · cases hb : extractSqlBlock r.data with
    | none =>
      cases hf : fallbackLoop (splitOnNl r.data) false with
      | nil => simp [extractedQuery, hb, hf]
      | cons l t =>
        have hne : pyStrip (joinNl (fallbackLoop (splitOnNl r.data) false)) ≠ [] :=
          fallback_strip_ne _ (by rw [hf]; exact List.cons_ne_nil _ _)
        rw [hf] at hne
        simp [extractedQuery, hb, hf, hne]
    | some q => simp [extractedQuery, hb]
  · intro pg h
    unfold parse_response at h
    split at h
    · exact Except.noConfusion h
    · next hq =>
      cases h
      intro hcon
      apply hq
      simpa using congrArg String.data hcon

/-- Witness for claim C6: its non-empty-query part applied at the input
`"SELECT 1;"`. -/
theorem claim_C6_witness :
    ({ query := "SELECT 1;", explanation := "", tables_used := [],
       optimizations := "", raw_response := "SELECT 1;" } : ParsedGeneration).query ≠ "" :=
  (claim_C6 "SELECT 1;").2.2 _ (by rfl)

/-- Claim C7, counterexample: the input "x ```sql   ``` y" contains a fenced
SQL block whose trimmed interior is empty, and `parse` fails instead of
returning that (empty) query. -/
theorem claim_C7_counterexample :
    parse_response "x ```sql   ``` y" = Except.error parseErrMsg ∧
      extractSqlBlock "x ```sql   ``` y".data = some [] := by
  exact ⟨rfl, by decide⟩

/-- Claim C7, amended: when the input contains a fenced SQL block — the tag
matched case-insensitively at its first occurrence, the interior running to
the next fence and free to span lines — and the trimmed interior is
non-empty, `parse` succeeds and its query is exactly that trimmed interior,
ignoring all later blocks. -/
theorem claim_C7 (r : String) (rest interior after : List Char)
    (h1 : afterFirstCI sqlTag r.data = some rest)
    (h2 : splitAtFirstCI fenceTag rest = some (interior, after))
    (h3 : pyStrip interior ≠ []) :
    parsedQueryOf r = some (String.mk (pyStrip interior)) := by
  have hq : extractedQuery r.data = pyStrip interior := by
    simp [extractedQuery, extractSqlBlock, h1, h2]
  unfold parsedQueryOf parse_response
  rw [hq, if_neg h3]

/-- Witness for claim C7 at an input with a case-variant tag, a multi-line
interior, and a second, ignored block. -/
theorem claim_C7_witness :
    parsedQueryOf "a ```SQL\nSELECT 1\n``` b ```sql z```" = some "SELECT 1" :=
  Eq.trans
    (claim_C7 "a ```SQL\nSELECT 1\n``` b ```sql z```"
      "\nSELECT 1\n``` b ```sql z```".data
      "\nSELECT 1\n".data
      " b ```sql z```".data
      (by decide) (by decide) (by decide))
    (by decide)

/-- A non-empty list keeps a non-empty prefix through `takeThroughSemi`. -/
theorem takeThroughSemi_ne_nil (ls : List (List Char)) (h : ls ≠ []) :
    takeThroughSemi ls ≠ [] := by
  cases ls with
  | nil => exact absurd rfl h
  | cons l t => cases hs : endsSemi l <;> simp [takeThroughSemi, hs]

/-- A list with a triggering element is not fully dropped. -/
theorem any_dropWhile_not (ls : List (List Char)) (h : ls.any trigger = true) :
    ls.dropWhile (fun l => !trigger l) ≠ [] := by
  induction ls with
  | nil => simp at h
  | cons l t ih =>
    cases ht : trigger l
    · simp only [List.any_cons, ht, Bool.false_or] at h
      simpa [List.dropWhile_cons, ht] using ih h
    · simp [List.dropWhile_cons, ht]

/-- Claim C8: with no fenced SQL block and some trigger line present, `parse`
succeeds and its query is the span of lines from the first trigger line
through the first line (inclusive) whose trimmed content ends in `;` — or to
the end of the text when none does — joined by newlines and trimmed. -/
theorem claim_C8 (r : String)
    (h1 : extractSqlBlock r.data = none)
    (h2 : (splitOnNl r.data).any trigger = true) :
    parsedQueryOf r =
      some (String.mk (pyStrip (joinNl
        (takeThroughSemi ((splitOnNl r.data).dropWhile (fun l => !trigger l)))))) := by
  have hfb : fallbackLoop (splitOnNl r.data) false =
      takeThroughSemi ((splitOnNl r.data).dropWhile (fun l => !trigger l)) :=
    fallbackLoop_false_eq _
  have hne : fallbackLoop (splitOnNl r.data) false ≠ [] := by
    rw [hfb]
    exact takeThroughSemi_ne_nil _ (any_dropWhile_not _ h2)
  have hemp : (fallbackLoop (splitOnNl r.data) false).isEmpty = false := by
    cases hf : fallbackLoop (splitOnNl r.data) false
    · exact absurd hf hne
    · rfl
  have hq : extractedQuery r.data =
      pyStrip (joinNl (fallbackLoop (splitOnNl r.data) false)) := by
    simp [extractedQuery, h1, hemp]
  have hqs : extractedQuery r.data ≠ [] := by
    rw [hq]
    exact fallback_strip_ne _ hne
  unfold parsedQueryOf parse_response
  rw [if_neg hqs, hq, hfb]

/-- Witness for claim C8 at a prose-then-statement input whose statement
spans two lines and ends in a semicolon. -/
theorem claim_C8_witness :
    parsedQueryOf "note\nSELECT a\nFROM t;\nafter" = some "SELECT a\nFROM t;" :=
  Eq.trans
    (claim_C8 "note\nSELECT a\nFROM t;\nafter" (by decide) (by decide))
    (by decide)
